import Mathlib

/-!
Shallow embedding of the Nest thermostat dashboard backend.

The embedded code lives in two places of the repository:
* `src/src/index.js` — the Express backend: a process-wide device-list
  cache (`deviceListCache` / `lastDeviceListFetch`, TTL 5000 ms), the
  `fetchDeviceList` helper wrapping the upstream GET in an
  exponential-backoff retry, and the route handlers for
  `GET /api/devices`, `POST /api/devices/:deviceId/temperature`,
  `POST /api/devices/:deviceId/mode` and `POST /api/devices/:deviceId/name`.
* `app/api/auth/[...nextauth]/route.ts` and the Next.js
  `app/api/devices` route — the JWT refresh callback and the
  403-response classification.

JavaScript numbers are modelled as `ℚ`; absent JSON fields as `Option`;
JavaScript truthiness of `x || y` defaults is modelled explicitly
(`0`, `""`, `undefined`/`null` are falsy, an array — even empty — is
truthy).  Upstream HTTP interactions are parameters: each embedded
operation takes the outcome of the upstream calls it may issue and
reports the list of calls it actually issued.
-/

set_option autoImplicit false

namespace Nest

/-- A normalized JSON field value as sent to the frontend: either a number
or a string (the code uses the string marker "N/A" for unavailable data). -/
inductive JsVal where
  | num (q : ℚ)
  | str (s : String)
  deriving DecidableEq, Repr

/-- The unavailable-data marker used throughout `src/src/index.js`. -/
def NA : JsVal := .str "N/A"

/-- JavaScript `a || b` where `a` is an optional number: `undefined`,
`null` and `0` are falsy, every other number is truthy. -/
def jsOrNum (a : Option ℚ) (b : JsVal) : JsVal :=
  match a with
  | some v => if v = 0 then b else .num v
  | none => b

/-- JavaScript `a || b` where `a` is an optional string: `undefined`,
`null` and the empty string are falsy. -/
def jsOrStr (a : Option String) (b : String) : String :=
  match a with
  | some s => if s = "" then b else s
  | none => b

/-- JavaScript `a || b` on optional strings, keeping the result optional
(models `req.session?.tokens?.access_token || req.session?.accessToken`). -/
def jsOrOptStr (a b : Option String) : Option String :=
  match a with
  | some s => if s = "" then b else some s
  | none => b

/-- JavaScript truthiness of an optional string (`if (!accessToken)` etc.). -/
def truthyStr : Option String → Bool
  | some s => s != ""
  | none => false

/-- Boolean prefix test on character lists. -/
def charsPrefixOf : List Char → List Char → Bool
  | [], _ => true
  | _ :: _, [] => false
  | a :: as, b :: bs => a == b && charsPrefixOf as bs

/-- Boolean infix test on character lists: `sub` occurs contiguously. -/
def charsInfixOf (sub : List Char) : List Char → Bool
  | [] => charsPrefixOf sub []
  | c :: rest => charsPrefixOf sub (c :: rest) || charsInfixOf sub rest

/-- Substring test, modelling JavaScript `String.prototype.includes`. -/
def strIncludes (s sub : String) : Bool :=
  charsInfixOf sub.toList s.toList

/-- Optional chaining plus `includes`:
`errorBody.error?.message?.includes(sub)` is falsy when the message is
absent. -/
def jsIncludesOpt (m : Option String) (sub : String) : Bool :=
  match m with
  | some s => strIncludes s sub
  | none => false

/-- The `sdm.devices.traits.ThermostatMode` trait object. -/
structure ThermostatModeTrait where
  mode : Option String
  availableModes : Option (List String)
  deriving DecidableEq, Repr

/-- The `sdm.devices.traits.ThermostatTemperatureSetpoint` trait object. -/
structure SetpointTrait where
  heatCelsius : Option ℚ
  coolCelsius : Option ℚ
  deriving DecidableEq, Repr

/-- The `sdm.devices.traits.Temperature` trait object. -/
structure TemperatureTrait where
  ambientTemperatureCelsius : Option ℚ
  deriving DecidableEq, Repr

/-- The `sdm.devices.traits.Humidity` trait object. -/
structure HumidityTrait where
  ambientHumidityPercent : Option ℚ
  deriving DecidableEq, Repr

/-- The nested trait map of an upstream device object; each trait object
may be absent (the code guards every access with `?.`). -/
structure Traits where
  thermostatMode : Option ThermostatModeTrait
  temperatureSetpoint : Option SetpointTrait
  temperature : Option TemperatureTrait
  humidity : Option HumidityTrait
  deriving DecidableEq, Repr

/-- The `{}` default of `device.traits || {}`. -/
def emptyTraits : Traits :=
  { thermostatMode := none, temperatureSetpoint := none
  , temperature := none, humidity := none }

/-- A raw upstream device object (the fields the backend reads). -/
structure RawDevice where
  name : String
  type : String
  traits : Option Traits
  parentRelations : List String
  deriving DecidableEq, Repr

/-- `device.traits || {}` (an object is truthy, so only absence defaults). -/
def getTraits (d : RawDevice) : Traits :=
  d.traits.getD emptyTraits

/-- `device.name.split('/').pop()` — the device id is the last path
segment of the upstream device name. -/
def lastSegment (s : String) : String :=
  (s.splitOn "/").getLastD ""

/-- `traits['sdm.devices.traits.ThermostatMode']?.mode`. -/
def modeOf (t : Traits) : Option String :=
  t.thermostatMode.bind (·.mode)

/-- `traits['sdm.devices.traits.ThermostatMode']?.availableModes`. -/
def availableModesOf (t : Traits) : Option (List String) :=
  t.thermostatMode.bind (·.availableModes)

/-- `traits['sdm.devices.traits.ThermostatTemperatureSetpoint']?.heatCelsius`. -/
def heatSetpointOf (t : Traits) : Option ℚ :=
  t.temperatureSetpoint.bind (·.heatCelsius)

/-- `traits['sdm.devices.traits.ThermostatTemperatureSetpoint']?.coolCelsius`. -/
def coolSetpointOf (t : Traits) : Option ℚ :=
  t.temperatureSetpoint.bind (·.coolCelsius)

/-- `traits['sdm.devices.traits.Temperature']?.ambientTemperatureCelsius`. -/
def ambientTempOf (t : Traits) : Option ℚ :=
  t.temperature.bind (·.ambientTemperatureCelsius)

/-- `traits['sdm.devices.traits.Humidity']?.ambientHumidityPercent`. -/
def humidityOf (t : Traits) : Option ℚ :=
  t.humidity.bind (·.ambientHumidityPercent)

/-- The normalized thermostat record produced by `GET /api/devices`
(`src/src/index.js`, lines 222–248). -/
structure Thermostat where
  id : String
  name : String
  currentTemp : JsVal
  targetTemp : JsVal
  mode : String
  humidity : JsVal
  deriving DecidableEq, Repr

/-- Normalization of one raw device by the `GET /api/devices` handler.
`customNames` is the per-session custom-name map; every default uses the
JavaScript falsy `||` operator exactly as the source does. -/
def normalizeDevice (customNames : String → Option String) (d : RawDevice) :
    Thermostat :=
  let deviceId := lastSegment d.name
  let traits := getTraits d
  let targetTemp := jsOrNum (heatSetpointOf traits)
    (jsOrNum (coolSetpointOf traits) NA)
  { id := deviceId
  , name := jsOrStr (customNames deviceId) (lastSegment d.name)
  , currentTemp := jsOrNum (ambientTempOf traits) NA
  , targetTemp := targetTemp
  , mode := jsOrStr (modeOf traits) "N/A"
  , humidity := jsOrNum (humidityOf traits) NA }

/-- The thermostat-type filter plus normalization of the
`GET /api/devices` handler. -/
def listThermostats (customNames : String → Option String)
    (devices : List RawDevice) : List Thermostat :=
  (devices.filter (·.type == "sdm.devices.types.THERMOSTAT")).map
    (normalizeDevice customNames)

/-! ## The device-list cache (`src/src/index.js`, lines 12–15 and 165–206) -/

/-- `CACHE_DURATION = 5000` milliseconds. -/
def CACHE_DURATION : Nat := 5000

/-- The process-wide cache slot: `deviceListCache` (initially `null`) and
`lastDeviceListFetch` (initially `0`), times in milliseconds. -/
structure CacheState where
  deviceListCache : Option (List RawDevice)
  lastDeviceListFetch : Nat
  deriving DecidableEq, Repr

/-- The failure of an upstream HTTP call: a connection-level error or a
non-2xx response status. -/
inductive HttpError where
  | network
  | status (code : Nat)
  deriving DecidableEq, Repr

/-- Body of a successful upstream `GET /devices`: the `devices` field may
be absent from the JSON object. -/
abbrev DeviceListBody := Option (List RawDevice)

/-- Overall outcome of one (backoff-wrapped) upstream device-list fetch. -/
inductive UpstreamResult where
  | success (body : DeviceListBody)
  | failure (e : HttpError)
  deriving DecidableEq, Repr

/-- What `fetchDeviceList` produces for its caller. -/
inductive FetchOutcome where
  | ok (devices : List RawDevice)
  | error (e : HttpError)
  deriving DecidableEq, Repr

/-- Result of one `fetchDeviceList` call: the value returned (or error
thrown), the cache slot afterwards, and whether an upstream fetch was
performed. -/
structure FetchResult where
  outcome : FetchOutcome
  state : CacheState
  upstreamCalled : Bool
  deriving DecidableEq, Repr

/-- The freshness test `deviceListCache && (now - lastDeviceListFetch) <
CACHE_DURATION`: the slot is truthy (non-null; arrays, even empty, are
truthy) and young enough. -/
def cacheFresh (st : CacheState) (now : Nat) : Bool :=
  st.deviceListCache.isSome &&
    decide (now - st.lastDeviceListFetch < CACHE_DURATION)

/-- Embedding of `fetchDeviceList(accessToken, forceRefresh)`
(`src/src/index.js`, lines 165–206).  On a fresh cache hit (and no
`forceRefresh`) the cached list is returned with no upstream call.
Otherwise the upstream fetch runs: a failure is rethrown with the cache
slot untouched; a success whose body has no `devices` field returns `[]`
without touching the cache; a success with a `devices` list stores it
with `fetchedAt = now` and returns it. -/
def fetchDeviceList (st : CacheState) (now : Nat) (forceRefresh : Bool)
    (upstream : UpstreamResult) : FetchResult :=
  if !forceRefresh && cacheFresh st now then
    { outcome := .ok (st.deviceListCache.getD [])
    , state := st, upstreamCalled := false }
  else
    match upstream with
    | .failure e =>
        { outcome := .error e, state := st, upstreamCalled := true }
    | .success none =>
        { outcome := .ok [], state := st, upstreamCalled := true }
    | .success (some ds) =>
        { outcome := .ok ds
        , state := { deviceListCache := some ds, lastDeviceListFetch := now }
        , upstreamCalled := true }

/-- A sequence of `GET /api/devices` reads at the given instants, with no
intervening write and no `forceRefresh`.  The upstream oracle `up` is
indexed by the number of upstream fetches performed so far; the result is
the final cache slot together with the total number of upstream fetches. -/
def readsRun (up : Nat → UpstreamResult) :
    CacheState → List Nat → Nat → CacheState × Nat
  | st, [], calls => (st, calls)
  | st, t :: ts, calls =>
      let r := fetchDeviceList st t false (up calls)
      readsRun up r.state ts (calls + if r.upstreamCalled then 1 else 0)

/-- Total number of upstream fetches across a read sequence started on a
given cache slot. -/
def readsCount (st : CacheState) (times : List Nat)
    (up : Nat → UpstreamResult) : Nat :=
  (readsRun up st times 0).2

/-! ## Session state and the write endpoints (`src/src/index.js`) -/

/-- The per-user session fields the backend reads or writes:
`req.session.tokens?.access_token`, `req.session.accessToken`,
`req.session.oauthState` and the custom-name map
`req.session.customNames`. -/
structure Session where
  tokensAccessToken : Option String
  accessToken : Option String
  oauthState : Option String
  customNames : String → Option String

/-- `req.session?.tokens?.access_token || req.session?.accessToken`,
the expression every route uses to obtain the bearer token. -/
def Session.bearer (s : Session) : Option String :=
  jsOrOptStr s.tokensAccessToken s.accessToken

/-- Parameters attached to an upstream `executeCommand` POST body. -/
inductive CmdParams where
  | heatC (heatCelsius : ℚ)
  | coolC (coolCelsius : ℚ)
  | modeParam (mode : String)
  deriving DecidableEq, Repr

/-- One outbound HTTP call to the upstream device API. -/
inductive UpstreamCall where
  | getDevice (deviceId : String)
  | executeCommand (deviceId : String) (command : String) (params : CmdParams)
  | getDeviceList
  deriving DecidableEq, Repr

/-- The richer normalized record built by the temperature and mode
endpoints for their own 200 response (`src/src/index.js`, lines
471–496 and 558–583): mode-keyed target temperature plus
`availableModes`. -/
structure ThermostatV2 where
  id : String
  name : String
  currentTemp : JsVal
  targetTemp : JsVal
  mode : String
  humidity : JsVal
  availableModes : List String
  deriving DecidableEq, Repr

/-- Normalization used inside the temperature/mode endpoints: the mode
defaults (falsy `||`) to `'HEAT'`, `availableModes` defaults to the full
list, and the target temperature is keyed by the (defaulted) mode with a
final falsy `|| 'N/A'`. -/
def normalizeDeviceV2 (customNames : String → Option String)
    (d : RawDevice) : ThermostatV2 :=
  let deviceId := lastSegment d.name
  let traits := getTraits d
  let mode := jsOrStr (modeOf traits) "HEAT"
  let availableModes :=
    (availableModesOf traits).getD ["HEAT", "COOL", "ECO", "OFF"]
  let targetTemp : JsVal :=
    if mode = "COOL" then jsOrNum (coolSetpointOf traits) NA
    else if mode = "HEAT" then jsOrNum (heatSetpointOf traits) NA
    else NA
  { id := deviceId
  , name := jsOrStr (customNames deviceId) (lastSegment d.name)
  , currentTemp := jsOrNum (ambientTempOf traits) NA
  , targetTemp := targetTemp
  , mode := mode
  , humidity := jsOrNum (humidityOf traits) NA
  , availableModes := availableModes }

/-- Filter-and-normalize for the temperature/mode endpoints. -/
def listThermostatsV2 (customNames : String → Option String)
    (devices : List RawDevice) : List ThermostatV2 :=
  (devices.filter (·.type == "sdm.devices.types.THERMOSTAT")).map
    (normalizeDeviceV2 customNames)

/-- The `temperature` field of the request body after the handler's
`parseFloat`: absent (`undefined`/`null`), not a number, or a number. -/
inductive TempBody where
  | missing
  | nan
  | value (q : ℚ)
  deriving DecidableEq, Repr

/-- Outcomes of the upstream calls the temperature endpoint may issue, in
program order: the device-detail GET, the `executeCommand` POST, and the
direct device-list GET used to build the response. -/
structure TempUpstream where
  getDevice : Except HttpError RawDevice
  postCommand : Except HttpError Unit
  getList : Except HttpError DeviceListBody

/-- Response of `POST /api/devices/:deviceId/temperature`. -/
inductive TempResponse where
  | notAuthenticated
  | temperatureRequired
  | invalidTemperature
  | outOfRange
  | ecoModeRejected
  | unsupportedMode (m : String)
  | ok (devices : List ThermostatV2)
  | httpError (e : HttpError)
  deriving DecidableEq, Repr

/-- Embedding of the `POST /api/devices/:deviceId/temperature` handler
(`src/src/index.js`, lines 365–508).  Returns the response, the cache
slot afterwards (the handler never touches the cache variables), and the
upstream calls issued in order. -/
def postTemperature (sess : Session) (cache : CacheState)
    (deviceId : String) (body : TempBody) (up : TempUpstream) :
    TempResponse × CacheState × List UpstreamCall :=
  if !truthyStr sess.bearer then (.notAuthenticated, cache, [])
  else
    match body with
    | .missing => (.temperatureRequired, cache, [])
    | .nan => (.invalidTemperature, cache, [])
    | .value tempValue =>
      if tempValue < 9 ∨ tempValue > 32 then (.outOfRange, cache, [])
      else
        match up.getDevice with
        | .error e => (.httpError e, cache, [.getDevice deviceId])
        | .ok device =>
          let traits := getTraits device
          let mode := jsOrStr (modeOf traits) "HEAT"
          if mode = "ECO" then
            (.ecoModeRejected, cache, [.getDevice deviceId])
          else if mode = "COOL" then
            let cmd : UpstreamCall := .executeCommand deviceId
              "sdm.devices.commands.ThermostatTemperatureSetpoint.SetCool"
              (.coolC tempValue)
            match up.postCommand with
            | .error e => (.httpError e, cache, [.getDevice deviceId, cmd])
            | .ok _ =>
              match up.getList with
              | .error e =>
                  (.httpError e, cache,
                    [.getDevice deviceId, cmd, .getDeviceList])
              | .ok none =>
                  (.ok [], cache, [.getDevice deviceId, cmd, .getDeviceList])
              | .ok (some ds) =>
                  (.ok (listThermostatsV2 sess.customNames ds), cache,
                    [.getDevice deviceId, cmd, .getDeviceList])
          else if mode = "HEAT" then
            let cmd : UpstreamCall := .executeCommand deviceId
              "sdm.devices.commands.ThermostatTemperatureSetpoint.SetHeat"
              (.heatC tempValue)
            match up.postCommand with
            | .error e => (.httpError e, cache, [.getDevice deviceId, cmd])
            | .ok _ =>
              match up.getList with
              | .error e =>
                  (.httpError e, cache,
                    [.getDevice deviceId, cmd, .getDeviceList])
              | .ok none =>
                  (.ok [], cache, [.getDevice deviceId, cmd, .getDeviceList])
              | .ok (some ds) =>
                  (.ok (listThermostatsV2 sess.customNames ds), cache,
                    [.getDevice deviceId, cmd, .getDeviceList])
          else
            (.unsupportedMode mode, cache, [.getDevice deviceId])

/-- Outcomes of the upstream calls the mode endpoint may issue. -/
structure ModeUpstream where
  postCommand : Except HttpError Unit
  getList : Except HttpError DeviceListBody

/-- Response of `POST /api/devices/:deviceId/mode`. -/
inductive ModeResponse where
  | notAuthenticated
  | modeRequired
  | ok (devices : List ThermostatV2)
  | httpError (e : HttpError)
  deriving DecidableEq, Repr

/-- Embedding of the `POST /api/devices/:deviceId/mode` handler
(`src/src/index.js`, lines 511–595).  Like the temperature endpoint it
fetches a fresh device list directly for its own response and never
touches the cache variables. -/
def postMode (sess : Session) (cache : CacheState) (deviceId : String)
    (mode : Option String) (up : ModeUpstream) :
    ModeResponse × CacheState × List UpstreamCall :=
  if !truthyStr sess.bearer then (.notAuthenticated, cache, [])
  else if !truthyStr mode then (.modeRequired, cache, [])
  else
    let cmd : UpstreamCall := .executeCommand deviceId
      "sdm.devices.commands.ThermostatMode.SetMode"
      (.modeParam (mode.getD ""))
    match up.postCommand with
    | .error e => (.httpError e, cache, [cmd])
    | .ok _ =>
      match up.getList with
      | .error e => (.httpError e, cache, [cmd, .getDeviceList])
      | .ok none => (.ok [], cache, [cmd, .getDeviceList])
      | .ok (some ds) =>
          (.ok (listThermostatsV2 sess.customNames ds), cache,
            [cmd, .getDeviceList])

/-- The response record built by the name endpoint (raw passthrough plus
the session custom name). -/
structure NameThermostat where
  name : String
  type : String
  traits : Traits
  parentRelations : List String
  customName : String
  deriving DecidableEq, Repr

/-- Response of `POST /api/devices/:deviceId/name`. -/
inductive NameResponse where
  | notAuthenticated
  | nameRequired
  | ok (devices : List NameThermostat)
  | httpError (e : HttpError)
  deriving DecidableEq, Repr

/-- Filter-and-shape for the name endpoint's response. -/
def nameThermostats (customNames : String → Option String)
    (devices : List RawDevice) : List NameThermostat :=
  (devices.filter (·.type == "sdm.devices.types.THERMOSTAT")).map
    (fun d =>
      { name := d.name
      , type := d.type
      , traits := getTraits d
      , parentRelations := d.parentRelations
      , customName := jsOrStr (customNames (lastSegment d.name))
          (lastSegment d.name) })

/-- Embedding of the `POST /api/devices/:deviceId/name` handler
(`src/src/index.js`, lines 273–362): stores the custom name in the
session's `customNames` map, then refetches the device list through the
cached fetcher with `forceRefresh = true`.  Returns the response, the
session and cache afterwards, and the upstream calls issued. -/
def postName (sess : Session) (cache : CacheState) (deviceId : String)
    (name : Option String) (now : Nat) (up : UpstreamResult) :
    NameResponse × Session × CacheState × List UpstreamCall :=
  if !truthyStr sess.bearer then (.notAuthenticated, sess, cache, [])
  else if !truthyStr name then (.nameRequired, sess, cache, [])
  else
    let sess' : Session :=
      { sess with customNames := fun k =>
          if k = deviceId then name else sess.customNames k }
    let r := fetchDeviceList cache now true up
    match r.outcome with
    | .error e => (.httpError e, sess', r.state, [.getDeviceList])
    | .ok ds =>
        (.ok (nameThermostats sess'.customNames ds), sess', r.state,
          [.getDeviceList])

/-! ## The retrying HTTP client (`backOff` call, `src/src/index.js`,
lines 176–191) -/

/-- Outcome of a single HTTP attempt made inside the retry wrapper. -/
inductive ReqOutcome where
  | ok
  | err (e : HttpError)
  deriving DecidableEq, Repr

/-- The retry loop of the `exponential-backoff` package: run attempts
until one succeeds, the attempt budget is exhausted, or the retry
predicate declines.  `req` is indexed by the number of attempts already
made; the result carries the total number of attempts. -/
def backOffRun (req : Nat → ReqOutcome)
    (retryPred : HttpError → Nat → Bool) :
    Nat → Nat → ReqOutcome × Nat
  | 0, made => (.err .network, made)
  | fuel + 1, made =>
    match req made with
    | .ok => (.ok, made + 1)
    | .err e =>
      if fuel = 0 || !retryPred e (made + 1) then (.err e, made + 1)
      else backOffRun req retryPred fuel (made + 1)

/-- The package's default `retry` option: retry every error.  The call in
`fetchDeviceList` passes only `numOfAttempts`, `startingDelay`,
`timeMultiple` and `maxDelay`, so this default is in force. -/
def defaultRetryPolicy : HttpError → Nat → Bool := fun _ _ => true

/-- The `backOff(...)` call of `fetchDeviceList` with its configured
`numOfAttempts: 3` and the default retry predicate. -/
def deviceListBackOff (req : Nat → ReqOutcome) : ReqOutcome × Nat :=
  backOffRun req defaultRetryPolicy 3 0

/-- Delay inserted before the (n+1)-th retry, from the configured
`startingDelay: 1000`, `timeMultiple: 2`, `maxDelay: 5000`. -/
def backoffDelay (n : Nat) : Nat :=
  min (1000 * 2 ^ n) 5000

/-! ## The JWT refresh callback
(`app/api/auth/[...nextauth]/route.ts`, lines 65–127) -/

/-- The NextAuth JWT token object: the session-scoped credential. -/
structure JwtToken where
  accessToken : Option String
  refreshToken : Option String
  accessTokenExpires : Option Nat
  error : Option String
  deriving DecidableEq, Repr

/-- The `account` object present only on initial sign-in (the code
guards on `account && user`; both are folded into this option). -/
structure AccountInfo where
  access_token : Option String
  refresh_token : Option String
  expires_at : Option Nat
  deriving DecidableEq, Repr

/-- Result of the refresh POST to `https://oauth2.googleapis.com/token`:
a 2xx body with the new token, or any failure (non-ok response or thrown
error). -/
inductive RefreshResponse where
  | ok (access_token : String) (expires_in : Nat)
  | errorResp
  deriving DecidableEq, Repr

/-- JavaScript `Date.now() < e` where `e` may be `undefined` (comparison
with `undefined` is false). -/
def jsLtNow (now : Nat) (e : Option Nat) : Bool :=
  match e with
  | some v => decide (now < v)
  | none => false

/-- Embedding of the `jwt` callback (`authOptions.callbacks.jwt`).
Returns the resulting token and the number of network calls made.  On
initial sign-in the account's tokens are installed; otherwise a still
valid access token is returned unchanged with no network call, and an
expired one triggers exactly one refresh POST whose failure marks the
credential with `RefreshAccessTokenError`. -/
def jwtCallback (token : JwtToken) (account : Option AccountInfo)
    (now : Nat) (refresh : RefreshResponse) : JwtToken × Nat :=
  match account with
  | some acc =>
      ({ token with
          accessToken := acc.access_token
        , refreshToken := acc.refresh_token
        , accessTokenExpires := some (match acc.expires_at with
            | some e => e * 1000
            | none => now + 3600 * 1000) }, 0)
  | none =>
    if jsLtNow now token.accessTokenExpires then (token, 0)
    else
      match refresh with
      | .ok newAccess expiresIn =>
          ({ token with
              accessToken := some newAccess
            , accessTokenExpires := some (now + expiresIn * 1000) }, 1)
      | .errorResp =>
          ({ token with error := some "RefreshAccessTokenError" }, 1)

/-! ## 403 classification in the Next.js devices route
(`app/api/devices`, modelled from `src/unnamed/part_003`,
lines 149–163) -/

/-- The JSON error payload the route returns for an upstream 403. -/
structure Err403Response where
  error : String
  details : String
  requiresReauth : Bool
  status : Nat
  deriving DecidableEq, Repr

/-- Details string of the consent-required variant. -/
def consentDetails : String :=
  "Device access permission has expired. Please sign out and sign in again to grant access to your devices."

/-- Details string of the plain permission-denied variant. -/
def provisionDetails : String :=
  "The Smart Device Management API may not be enabled or the project may not have access to Nest devices"

/-- The 403 branch: `isConsentRequired` is true when the upstream error
body's `error.message` contains "consent" or "permission". -/
def handle403 (errMessage : Option String) : Err403Response :=
  let isConsentRequired :=
    jsIncludesOpt errMessage "consent" || jsIncludesOpt errMessage "permission"
  { error := "Permission denied"
  , details := if isConsentRequired then consentDetails else provisionDetails
  , requiresReauth := isConsentRequired
  , status := 403 }

/-- The route's classified response for an upstream non-ok status. -/
inductive RouteError where
  | forbidden (r : Err403Response)
  | authRequired
  | notFound
  | generic (status : Nat)
  deriving DecidableEq, Repr

/-- Dispatch on the upstream status in the devices route's error path:
403 goes to `handle403`, 401 and 404 to their fixed payloads, all else
to the generic passthrough. -/
def devicesRouteOnError (status : Nat) (errMessage : Option String) :
    RouteError :=
  if status = 403 then .forbidden (handle403 errMessage)
  else if status = 401 then .authRequired
  else if status = 404 then .notFound
  else .generic status

/-! ## Concrete fixtures used by witnesses and counterexamples -/

/-- Trait map of a thermostat in HEAT mode with heat setpoint 20. -/
def heatTraits : Traits :=
  { thermostatMode := some ⟨some "HEAT", some ["HEAT", "COOL", "ECO", "OFF"]⟩
  , temperatureSetpoint := some ⟨some 20, none⟩
  , temperature := some ⟨some 21⟩
  , humidity := some ⟨some 45⟩ }

/-- Same thermostat after a setpoint write to 25. -/
def heatTraits25 : Traits :=
  { heatTraits with temperatureSetpoint := some ⟨some 25, none⟩ }

/-- Trait map of a thermostat in COOL mode. -/
def coolTraits : Traits :=
  { heatTraits with
      thermostatMode := some ⟨some "COOL", some ["HEAT", "COOL", "ECO", "OFF"]⟩
    , temperatureSetpoint := some ⟨none, some 24⟩ }

/-- Trait map of a thermostat in ECO mode. -/
def ecoTraits : Traits :=
  { heatTraits with
      thermostatMode := some ⟨some "ECO", some ["HEAT", "COOL", "ECO", "OFF"]⟩ }

/-- Trait map whose numeric trait values are all exactly 0 (heat setpoint
0, ambient temperature 0, humidity 0) with cool setpoint 24. -/
def zeroTraits : Traits :=
  { thermostatMode := some ⟨some "HEAT", none⟩
  , temperatureSetpoint := some ⟨some 0, some 24⟩
  , temperature := some ⟨some 0⟩
  , humidity := some ⟨some 0⟩ }

/-- A raw upstream thermostat device. -/
def devA : RawDevice :=
  { name := "enterprises/proj/devices/dev-1"
  , type := "sdm.devices.types.THERMOSTAT"
  , traits := some heatTraits
  , parentRelations := [] }

/-- The same device as seen upstream after its setpoint moved to 25. -/
def devA25 : RawDevice := { devA with traits := some heatTraits25 }

/-- A COOL-mode device. -/
def devCool : RawDevice := { devA with traits := some coolTraits }

/-- An ECO-mode device. -/
def devEco : RawDevice := { devA with traits := some ecoTraits }

/-- A device whose numeric trait values are all 0. -/
def devZero : RawDevice := { devA with traits := some zeroTraits }

/-- An authenticated session with no custom names. -/
def sessA : Session :=
  { tokensAccessToken := some "tok-1"
  , accessToken := none
  , oauthState := none
  , customNames := fun _ => none }

/-- The empty process-start cache slot. -/
def cache0 : CacheState :=
  { deviceListCache := none, lastDeviceListFetch := 0 }

/-- Upstream outcomes for a successful setpoint write against `devA`. -/
def upWrite : TempUpstream :=
  { getDevice := .ok devA, postCommand := .ok ()
  , getList := .ok (some [devA25]) }

/-- Upstream outcomes for a write attempt against the ECO-mode device. -/
def upEco : TempUpstream :=
  { getDevice := .ok devEco, postCommand := .ok ()
  , getList := .ok (some [devEco]) }

/-- Upstream outcomes for a write against the COOL-mode device. -/
def upCool : TempUpstream :=
  { getDevice := .ok devCool, postCommand := .ok ()
  , getList := .ok (some [devCool]) }

/-- Upstream outcomes that all fail (never consumed in the runs that use
this fixture). -/
def upUnused : TempUpstream :=
  { getDevice := .error .network, postCommand := .error .network
  , getList := .error .network }

/-! ## Helper lemmas -/

/-- A falsy-or numeric default never produces the number 0 when its
fallback does not. -/
theorem jsOrNum_ne_zero (a : Option ℚ) (b : JsVal) (hb : b ≠ .num 0) :
    jsOrNum a b ≠ .num 0 := by
  unfold jsOrNum
  cases a with
  | none => exact hb
  | some v =>
      by_cases h : v = 0
      · simpa [h] using hb
      · simp [h]

/-- A falsy-or numeric default discards an explicit 0. -/
theorem jsOrNum_zero (b : JsVal) : jsOrNum (some 0) b = b := by
  simp [jsOrNum]

/-- The unavailable marker is not a number. -/
theorem na_ne_num (q : ℚ) : NA ≠ JsVal.num q := by
  simp [NA]

/-! ## Claims -/

/-- Claim C8: when the upstream device-list fetch fails, `fetchDeviceList`
propagates the failure to its caller instead of returning the stale
cached sequence, and the cache slot (cached devices and fetch timestamp)
is left unchanged by the failed call. -/
theorem fetch_failure_propagates_cache_unchanged
    (st : CacheState) (now : Nat) (force : Bool) (e : HttpError)
    (hmiss : (!force && cacheFresh st now) = false) :
    fetchDeviceList st now force (.failure e) =
      { outcome := .error e, state := st, upstreamCalled := true } := by
  simp [fetchDeviceList, hmiss]

/-- Witness for C8: a stale cache slot, a network failure at time 10000. -/
theorem fetch_failure_propagates_cache_unchanged_witness :
    fetchDeviceList { deviceListCache := some [devA], lastDeviceListFetch := 0 }
        10000 false (.failure .network) =
      { outcome := .error .network
      , state := { deviceListCache := some [devA], lastDeviceListFetch := 0 }
      , upstreamCalled := true } :=
  fetch_failure_propagates_cache_unchanged _ _ _ _ (by decide)

/-- Claim C6: for every credential whose access-token expiry instant is in
the future, the jwt callback (outside initial sign-in) returns the stored
token object unchanged and makes zero network calls. -/
theorem valid_token_returned_unchanged (token : JwtToken) (now e : Nat)
    (he : token.accessTokenExpires = some e) (hfut : now < e)
    (refresh : RefreshResponse) :
    jwtCallback token none now refresh = (token, 0) := by
  simp [jwtCallback, jsLtNow, he, hfut]

/-- Witness for C6: a token expiring at instant 2000, asked for at 1000. -/
theorem valid_token_returned_unchanged_witness :
    jwtCallback
        { accessToken := some "acc", refreshToken := some "ref"
        , accessTokenExpires := some 2000, error := none }
        none 1000 .errorResp =
      ({ accessToken := some "acc", refreshToken := some "ref"
        , accessTokenExpires := some 2000, error := none }, 0) :=
  valid_token_returned_unchanged _ 1000 2000 rfl (by decide) _

/-- Claim C7: an upstream 403 whose error message contains consent or
permission wording is answered with the consent-required details and
`requiresReauth = true`; a 403 without such wording gets the plain
permission-denied details without the re-auth flag. -/
theorem forbidden_consent_classification (msg : String) :
    (strIncludes msg "consent" = true ∨ strIncludes msg "permission" = true →
      devicesRouteOnError 403 (some msg) =
        .forbidden
          { error := "Permission denied", details := consentDetails
          , requiresReauth := true, status := 403 })
    ∧ (strIncludes msg "consent" = false →
        strIncludes msg "permission" = false →
      devicesRouteOnError 403 (some msg) =
        .forbidden
          { error := "Permission denied", details := provisionDetails
          , requiresReauth := false, status := 403 }) := by
  constructor
  · rintro (h | h) <;>
      simp [devicesRouteOnError, handle403, jsIncludesOpt, h]
  · intro h1 h2
    simp [devicesRouteOnError, handle403, jsIncludesOpt, h1, h2]

/-- Witness for C7: one message with the consent wording, one without. -/
theorem forbidden_consent_classification_witness :
    devicesRouteOnError 403 (some "user consent required") =
      .forbidden
        { error := "Permission denied", details := consentDetails
        , requiresReauth := true, status := 403 }
    ∧ devicesRouteOnError 403 (some "bad gateway") =
      .forbidden
        { error := "Permission denied", details := provisionDetails
        , requiresReauth := false, status := 403 } :=
  ⟨(forbidden_consent_classification "user consent required").1
      (Or.inl (by decide)),
   (forbidden_consent_classification "bad gateway").2 (by decide) (by decide)⟩

/-- Claim C9: in the normalized record returned by `GET /api/devices`, a
trait value that is exactly 0 is replaced by the unavailable marker
(ambient temperature, humidity) or falls through to the cool setpoint
(heat setpoint), because defaulting uses the JavaScript falsy `||`
operator; the number 0 is never reported in these fields. -/
theorem zero_trait_values_never_reported (cn : String → Option String)
    (d : RawDevice) :
    ((normalizeDevice cn d).currentTemp ≠ JsVal.num 0
      ∧ (normalizeDevice cn d).targetTemp ≠ JsVal.num 0
      ∧ (normalizeDevice cn d).humidity ≠ JsVal.num 0)
    ∧ (ambientTempOf (getTraits d) = some 0 →
        (normalizeDevice cn d).currentTemp = NA)
    ∧ (humidityOf (getTraits d) = some 0 →
        (normalizeDevice cn d).humidity = NA)
    ∧ (heatSetpointOf (getTraits d) = some 0 →
        (normalizeDevice cn d).targetTemp =
          jsOrNum (coolSetpointOf (getTraits d)) NA) := by
  refine ⟨⟨?_, ?_, ?_⟩, ?_, ?_, ?_⟩
  · exact jsOrNum_ne_zero _ _ (na_ne_num 0)
  · exact jsOrNum_ne_zero _ _ (jsOrNum_ne_zero _ _ (na_ne_num 0))
  · exact jsOrNum_ne_zero _ _ (na_ne_num 0)
  · intro h; simp [normalizeDevice, h, jsOrNum_zero]
  · intro h; simp [normalizeDevice, h, jsOrNum_zero]
  · intro h; simp [normalizeDevice, h, jsOrNum_zero]

/-- Witness for C9: the all-zero device; its zero heat setpoint falls
through to the cool setpoint 24, and zero ambient/humidity become N/A. -/
theorem zero_trait_values_never_reported_witness :
    (normalizeDevice (fun _ => none) devZero).currentTemp = NA
    ∧ (normalizeDevice (fun _ => none) devZero).humidity = NA
    ∧ (normalizeDevice (fun _ => none) devZero).targetTemp =
        jsOrNum (coolSetpointOf (getTraits devZero)) NA :=
  ⟨(zero_trait_values_never_reported (fun _ => none) devZero).2.1 rfl,
   (zero_trait_values_never_reported (fun _ => none) devZero).2.2.1 rfl,
   (zero_trait_values_never_reported (fun _ => none) devZero).2.2.2 rfl⟩

/-- Claim C5: a setpoint request outside [9, 32] °C is rejected with the
validation error and issues no upstream HTTP call of any kind — neither
the mode-lookup GET nor the command POST. -/
theorem out_of_range_setpoint_no_upstream_call (sess : Session)
    (cache : CacheState) (deviceId : String) (v : ℚ) (up : TempUpstream)
    (hauth : truthyStr sess.bearer = true) (hv : v < 9 ∨ v > 32) :
    postTemperature sess cache deviceId (.value v) up =
      (.outOfRange, cache, []) := by
  unfold postTemperature
  rw [hauth]
  simp [hv]

/-- Witness for C5: a request for 35 °C. -/
theorem out_of_range_setpoint_no_upstream_call_witness :
    postTemperature sessA cache0 "dev-1" (.value 35) upUnused =
      (.outOfRange, cache0, []) :=
  out_of_range_setpoint_no_upstream_call sessA cache0 "dev-1" 35 upUnused
    (by decide) (Or.inr (by norm_num))

/-- Claim C4: the setpoint write selects the upstream command from the
device's current mode, obtained by one upstream GET issued first: ECO is
refused with no setpoint-write command, COOL issues SetCool with
`coolCelsius`, HEAT issues SetHeat with `heatCelsius`, each directly
after the mode-lookup GET. -/
theorem setpoint_command_selected_by_mode (sess : Session)
    (cache : CacheState) (deviceId : String) (v : ℚ) (device : RawDevice)
    (up : TempUpstream)
    (hauth : truthyStr sess.bearer = true)
    (hlo : 9 ≤ v) (hhi : v ≤ 32)
    (hdev : up.getDevice = .ok device) :
    (jsOrStr (modeOf (getTraits device)) "HEAT" = "ECO" →
      postTemperature sess cache deviceId (.value v) up =
        (.ecoModeRejected, cache, [.getDevice deviceId]))
    ∧ (jsOrStr (modeOf (getTraits device)) "HEAT" = "COOL" →
      (postTemperature sess cache deviceId (.value v) up).2.2.take 2 =
        [.getDevice deviceId,
         .executeCommand deviceId
           "sdm.devices.commands.ThermostatTemperatureSetpoint.SetCool"
           (.coolC v)])
    ∧ (jsOrStr (modeOf (getTraits device)) "HEAT" = "HEAT" →
      (postTemperature sess cache deviceId (.value v) up).2.2.take 2 =
        [.getDevice deviceId,
         .executeCommand deviceId
           "sdm.devices.commands.ThermostatTemperatureSetpoint.SetHeat"
           (.heatC v)]) := by
  have hv : ¬(v < 9 ∨ v > 32) := by
    push_neg
    exact ⟨hlo, hhi⟩
  refine ⟨?_, ?_, ?_⟩
  · intro hm
    unfold postTemperature
    rw [hauth, hdev]
    simp [hm, hv]
  · intro hm
    unfold postTemperature
    rw [hauth, hdev]
    simp only [hm, hv, Bool.not_true, Bool.false_eq_true, if_false,
      if_neg hv]
    cases up.postCommand with
    | error e => simp
    | ok u =>
        cases up.getList with
        | error e => simp
        | ok body => cases body <;> simp
  · intro hm
    unfold postTemperature
    rw [hauth, hdev]
    simp only [hm, hv, Bool.not_true, Bool.false_eq_true, if_false,
      if_neg hv]
    cases up.postCommand with
    | error e => simp
    | ok u =>
        cases up.getList with
        | error e => simp
        | ok body => cases body <;> simp

/-- Witness for C4: the same request against an ECO, a COOL and a HEAT
device. -/
theorem setpoint_command_selected_by_mode_witness :
    postTemperature sessA cache0 "dev-1" (.value 22) upEco =
      (.ecoModeRejected, cache0, [.getDevice "dev-1"])
    ∧ (postTemperature sessA cache0 "dev-1" (.value 22) upCool).2.2.take 2 =
      [.getDevice "dev-1",
       .executeCommand "dev-1"
         "sdm.devices.commands.ThermostatTemperatureSetpoint.SetCool"
         (.coolC 22)]
    ∧ (postTemperature sessA cache0 "dev-1" (.value 22) upWrite).2.2.take 2 =
      [.getDevice "dev-1",
       .executeCommand "dev-1"
         "sdm.devices.commands.ThermostatTemperatureSetpoint.SetHeat"
         (.heatC 22)] :=
  ⟨(setpoint_command_selected_by_mode sessA cache0 "dev-1" 22 devEco upEco
      (by decide) (by norm_num) (by norm_num) rfl).1 (by decide),
   (setpoint_command_selected_by_mode sessA cache0 "dev-1" 22 devCool upCool
      (by decide) (by norm_num) (by norm_num) rfl).2.1 (by decide),
   (setpoint_command_selected_by_mode sessA cache0 "dev-1" 22 devA upWrite
      (by decide) (by norm_num) (by norm_num) rfl).2.2 (by decide)⟩

/-- Claim C10: a custom-name change issues no upstream device command: it
updates only the session's custom-name map and then refetches the device
list through the cached fetcher with `forceRefresh = true`; every other
session field, and the custom names of other devices, are unchanged. -/
theorem name_change_frame (sess : Session) (cache : CacheState)
    (deviceId : String) (n : String) (now : Nat) (up : UpstreamResult)
    (hauth : truthyStr sess.bearer = true) (hn : n ≠ "") :
    (postName sess cache deviceId (some n) now up).2.2.2 =
        [UpstreamCall.getDeviceList]
    ∧ (∀ c ∈ (postName sess cache deviceId (some n) now up).2.2.2,
        ∀ id cmd p, c ≠ UpstreamCall.executeCommand id cmd p)
    ∧ (postName sess cache deviceId (some n) now up).2.1.tokensAccessToken =
        sess.tokensAccessToken
    ∧ (postName sess cache deviceId (some n) now up).2.1.accessToken =
        sess.accessToken
    ∧ (postName sess cache deviceId (some n) now up).2.1.oauthState =
        sess.oauthState
    ∧ (postName sess cache deviceId (some n) now up).2.1.customNames deviceId =
        some n
    ∧ (∀ k, k ≠ deviceId →
        (postName sess cache deviceId (some n) now up).2.1.customNames k =
          sess.customNames k)
    ∧ (∀ ds, up = .success (some ds) →
        (postName sess cache deviceId (some n) now up).2.2.1 =
          { deviceListCache := some ds, lastDeviceListFetch := now }) := by
  have hname : truthyStr (some n) = true := by
    simp [truthyStr, hn]
  unfold postName
  rw [hauth, hname]
  cases up with
  | failure e =>
      simp [fetchDeviceList]
      intro k h1 h2
      exact absurd h2 h1
  | success body =>
      cases body with
      | none =>
          simp [fetchDeviceList]
          intro k h1 h2
          exact absurd h2 h1
      | some ds =>
          simp [fetchDeviceList]
          intro k h1 h2
          exact absurd h2 h1

/-- Witness for C10: renaming dev-1 in an authenticated session. -/
theorem name_change_frame_witness :
    (postName sessA cache0 "dev-1" (some "Living Room") 0
        (.success (some [devA]))).2.2.2 = [UpstreamCall.getDeviceList]
    ∧ (postName sessA cache0 "dev-1" (some "Living Room") 0
        (.success (some [devA]))).2.1.customNames "dev-1" =
        some "Living Room"
    ∧ (postName sessA cache0 "dev-1" (some "Living Room") 0
        (.success (some [devA]))).2.2.1 =
        { deviceListCache := some [devA], lastDeviceListFetch := 0 } := by
  have h := name_change_frame sessA cache0 "dev-1" "Living Room" 0
    (.success (some [devA])) (by decide) (by decide)
  exact ⟨h.1, h.2.2.2.2.2.1, h.2.2.2.2.2.2.2 [devA] rfl⟩

/-- Counterexample to claim C2 as stated: the `backOff` call configures no
retry predicate, so the library default (retry every error) applies and a
404-failing request is attempted 3 times, not once. -/
theorem backoff_retries_404 :
    deviceListBackOff (fun _ => .err (.status 404)) =
      (.err (.status 404), 3)
    ∧ (deviceListBackOff (fun _ => .err (.status 404))).2 ≠ 1 := by
  decide

/-- Claim C2 as amended: the retry wrapper retries every failure — 5xx,
429, network errors, and equally non-transient 4xx such as 404 — making
exactly 3 attempts before surfacing the error, with delays 1000 ms then
2000 ms (exponential, capped at 5000 ms, each at least the previous). -/
theorem backoff_retries_every_failure (e : HttpError)
    (req : Nat → ReqOutcome) (hreq : ∀ n, req n = .err e) :
    deviceListBackOff req = (.err e, 3)
    ∧ backoffDelay 0 = 1000 ∧ backoffDelay 1 = 2000
    ∧ backoffDelay 0 ≤ backoffDelay 1 := by
  refine ⟨?_, by decide, by decide, by decide⟩
  show backOffRun req defaultRetryPolicy 3 0 = (.err e, 3)
  simp [backOffRun, hreq, defaultRetryPolicy]

/-- Witness for C2 (amended): a request that always fails with 500. -/
theorem backoff_retries_every_failure_witness :
    deviceListBackOff (fun _ => .err (.status 500)) =
      (.err (.status 500), 3) :=
  (backoff_retries_every_failure (.status 500)
    (fun _ => .err (.status 500)) (fun _ => rfl)).1

/-- Counterexample to claim C1 as stated: after a successful setpoint
write, the next `GET /api/devices` read within the TTL of the pre-write
cache entry does NOT bypass the cache — it makes no upstream call and
returns the stale pre-write device list. -/
theorem write_then_read_uses_stale_cache :
    (postTemperature sessA
        (fetchDeviceList cache0 0 false (.success (some [devA]))).state
        "dev-1" (.value 25) upWrite).1 =
      .ok (listThermostatsV2 sessA.customNames [devA25])
    ∧ (fetchDeviceList
        (postTemperature sessA
          (fetchDeviceList cache0 0 false (.success (some [devA]))).state
          "dev-1" (.value 25) upWrite).2.1
        2000 false (.success (some [devA25]))).upstreamCalled = false
    ∧ (fetchDeviceList
        (postTemperature sessA
          (fetchDeviceList cache0 0 false (.success (some [devA]))).state
          "dev-1" (.value 25) upWrite).2.1
        2000 false (.success (some [devA25]))).outcome = .ok [devA]
    ∧ devA ≠ devA25 := by
  refine ⟨rfl, rfl, rfl, ?_⟩
  decide

/-- Claim C1 as amended: a setpoint or mode change leaves the device-list
cache slot untouched (each fetches a fresh list directly only for its own
response), so the next read is served by the normal TTL rule — within the
pre-write entry's TTL it is returned from the cache with no upstream
fetch; only a cache-fresh read bypass never happens after these writes. -/
theorem writes_leave_cache_untouched :
    (∀ sess cache deviceId body up,
      (postTemperature sess cache deviceId body up).2.1 = cache)
    ∧ (∀ sess cache deviceId m up,
      (postMode sess cache deviceId m up).2.1 = cache)
    ∧ (∀ st t up, cacheFresh st t = true →
      fetchDeviceList st t false up =
        { outcome := .ok (st.deviceListCache.getD [])
        , state := st, upstreamCalled := false }) := by
  refine ⟨?_, ?_, ?_⟩
  · intro sess cache deviceId body up
    simp only [postTemperature]
    repeat' split
    all_goals rfl
  · intro sess cache deviceId m up
    simp only [postMode]
    repeat' split
    all_goals rfl
  · intro st t up h
    simp [fetchDeviceList, h]

/-- Witness for C1 (amended): a concrete write leaves the concrete cache
slot unchanged, and the following in-TTL read is a pure cache hit. -/
theorem writes_leave_cache_untouched_witness :
    (postTemperature sessA
        { deviceListCache := some [devA], lastDeviceListFetch := 0 }
        "dev-1" (.value 25) upWrite).2.1 =
      { deviceListCache := some [devA], lastDeviceListFetch := 0 }
    ∧ fetchDeviceList
        { deviceListCache := some [devA], lastDeviceListFetch := 0 }
        2000 false (.success (some [devA25])) =
      { outcome := .ok [devA]
      , state := { deviceListCache := some [devA], lastDeviceListFetch := 0 }
      , upstreamCalled := false } := by
  refine ⟨writes_leave_cache_untouched.1 sessA _ "dev-1" (.value 25) upWrite, ?_⟩
  have h := writes_leave_cache_untouched.2.2
    { deviceListCache := some [devA], lastDeviceListFetch := 0 }
    2000 (.success (some [devA25])) (by decide)
  simpa using h

/-- Counterexample to claim C3 as stated: when the upstream 200 response
carries no `devices` field, `fetchDeviceList` returns `[]` without
writing the cache, so two reads inside one TTL window with no write make
two upstream calls. -/
theorem reads_refetch_on_missing_devices_field :
    readsCount cache0 [0, 1] (fun _ => .success none) = 2
    ∧ ¬ readsCount cache0 [0, 1] (fun _ => .success none) ≤ 1 := by
  decide

/-- Invariant step for C3 (amended): across reads inside one TTL window,
once one fetch has happened the cache slot stays fresh for the rest of
the window, so the total number of upstream fetches never exceeds one —
provided each fetch succeeds with a body containing the devices list. -/
theorem readsRun_within_ttl (t0 : Nat) (up : Nat → UpstreamResult)
    (hup : ∀ n, ∃ ds, up n = .success (some ds)) (times : List Nat)
    (hw : ∀ t ∈ times, t0 ≤ t ∧ t < t0 + CACHE_DURATION) :
    ∀ (st : CacheState) (c : Nat), c ≤ 1 →
      (c = 1 → st.deviceListCache.isSome = true ∧
        t0 ≤ st.lastDeviceListFetch) →
      (readsRun up st times c).2 ≤ 1 := by
  induction times with
  | nil =>
      intro st c hc _
      simpa [readsRun] using hc
  | cons t ts ih =>
    intro st c hc hinv
    have ht : t0 ≤ t ∧ t < t0 + CACHE_DURATION := hw t (by simp)
    have hw' : ∀ t' ∈ ts, t0 ≤ t' ∧ t' < t0 + CACHE_DURATION :=
      fun t' h => hw t' (by simp [h])
    simp only [readsRun]
    by_cases hfresh : cacheFresh st t = true
    · have hstep : fetchDeviceList st t false (up c) =
          { outcome := .ok (st.deviceListCache.getD [])
          , state := st, upstreamCalled := false } := by
        simp [fetchDeviceList, hfresh]
      rw [hstep]
      simpa using ih hw' st c hc hinv
    · obtain ⟨ds, hds⟩ := hup c
      have hstep : fetchDeviceList st t false (up c) =
          { outcome := .ok ds
          , state := { deviceListCache := some ds, lastDeviceListFetch := t }
          , upstreamCalled := true } := by
        simp only [hds]
        simp [fetchDeviceList, hfresh]
      rw [hstep]
      have hc0 : c = 0 := by
        by_contra hne
        have hc1 : c = 1 := by omega
        obtain ⟨hsome, hle⟩ := hinv hc1
        have : cacheFresh st t = true := by
          unfold cacheFresh
          rw [hsome]
          simp only [Bool.true_and, decide_eq_true_eq]
          omega
        exact hfresh this
      subst hc0
      simpa using ih hw'
        { deviceListCache := some ds, lastDeviceListFetch := t } 1
        (le_refl 1) (fun _ => ⟨rfl, ht.1⟩)

/-- Claim C3 as amended: for every sequence of reads inside one TTL window
with no intervening write and no forceRefresh, at most one upstream fetch
occurs, provided every upstream response is a success whose body contains
the devices list (a success without the field is not cached and would be
refetched). -/
theorem reads_within_ttl_at_most_one_fetch (t0 : Nat) (times : List Nat)
    (up : Nat → UpstreamResult) (st : CacheState)
    (hw : ∀ t ∈ times, t0 ≤ t ∧ t < t0 + CACHE_DURATION)
    (hup : ∀ n, ∃ ds, up n = .success (some ds)) :
    readsCount st times up ≤ 1 :=
  readsRun_within_ttl t0 up hup times hw st 0 (by decide)
    (fun h => absurd h (by decide))

/-- Witness for C3 (amended): three reads inside one window starting from
an empty cache, against an upstream that always returns `[devA]`. -/
theorem reads_within_ttl_at_most_one_fetch_witness :
    readsCount cache0 [100, 2100, 4099] (fun _ => .success (some [devA]))
      ≤ 1 :=
  reads_within_ttl_at_most_one_fetch 100 [100, 2100, 4099]
    (fun _ => .success (some [devA])) cache0 (by decide)
    (fun _ => ⟨[devA], rfl⟩)

end Nest
